import Mathlib

/-!
# Verification of the FUNKWEB tunnel animation

A shallow embedding of `src/TunnelAnimation.js` (class `TunnelAnimation`):
the configuration record, the per-section geometry built by
`createTunnelSection`, the per-frame update performed by `animate`, and the
lifecycle state machine (`start` / `stop` / `dispose` plus the scheduled
frame callbacks and the window resize-listener registry).

JavaScript numbers are idealised: exact rationals (`ℚ`) where the code only
adds, multiplies and compares, and real numbers (`ℝ`) where `Math.pow`,
`Math.cos` and `Math.sin` appear.  Material and listener identities are
modelled as natural-number tags, since the claims are about which objects
are shared, not about their contents.
-/

namespace Tunnel

/-- The configuration record built in the constructor (lines 6–17) and then
overridden by `Object.assign(this.config, options)`.  Counting fields
(`segments`, `rings`, `bufferSize`, `segmentDetail`) are naturals because the
code uses them as loop bounds; the remaining numeric fields are exact
rationals. -/
structure Config where
  radius : ℚ
  segments : ℕ
  rings : ℕ
  length : ℚ
  speed : ℚ
  lineWidth : ℚ
  baseOpacity : ℚ
  color : ℕ
  bufferSize : ℕ
  segmentDetail : ℕ
deriving DecidableEq

/-- The default configuration of the constructor (lines 6–17):
`radius: 10, segments: 72, rings: 60, length: 50, speed: 0.03,
lineWidth: 1.5, baseOpacity: 0.5, color: 0x000000, bufferSize: 2,
segmentDetail: 256`. -/
def defaultConfig : Config :=
  { radius := 10
    segments := 72
    rings := 60
    length := 50
    speed := 3/100
    lineWidth := 3/2
    baseOpacity := 1/2
    color := 0
    bufferSize := 2
    segmentDetail := 256 }

/-- `sectionLength = this.config.length / this.config.bufferSize`
(line 151). -/
def sectionLength (cfg : Config) : ℚ :=
  cfg.length / (cfg.bufferSize : ℚ)

/-- The per-section offset update of `animate` (lines 154–159):
`section.position.z += this.config.speed;` followed by
`if (section.position.z > sectionLength)
   section.position.z = -sectionLength * (this.config.bufferSize - 1);`.
Note the comparison is strict (`>`). -/
def stepOffset (cfg : Config) (offset : ℚ) : ℚ :=
  let o := offset + cfg.speed
  if sectionLength cfg < o then -sectionLength cfg * ((cfg.bufferSize : ℚ) - 1) else o

/-- Identity tag of the `ringMaterial` allocated once per section
(`new THREE.LineBasicMaterial`, lines 97–102) and shared by every ring
drawable of that section. -/
def ringMatId : ℕ := 0

/-- Identity tag of the `lineMaterial` allocated separately for the
longitudinal line batch (`new THREE.LineBasicMaterial`, lines 130–135).
It is a second, distinct material object, even though its parameters
(color, transparency, opacity, linewidth) coincide with `ringMaterial`'s. -/
def lineMatId : ℕ := 1

/-- A child drawable of a section group: its local z position
(`child.position.z`) and the identity of the material object it references
(`child.material`). -/
structure Child where
  z : ℚ
  matId : ℕ
deriving DecidableEq

/-- Ring drawable `i` of `createTunnelSection` (lines 104–108):
`ring.position.z = (i / rings) * length - length/2`, material
`ringMaterial`. -/
def ringChild (cfg : Config) (i : ℕ) : Child :=
  ⟨(i : ℚ) / (cfg.rings : ℚ) * cfg.length - cfg.length / 2, ringMatId⟩

/-- The ring drawables added by the loop `for (let i = 0; i <= rings; i++)`
(lines 104–108), in insertion order. -/
def ringChildren (cfg : Config) : List Child :=
  (List.range (cfg.rings + 1)).map (ringChild cfg)

/-- The `LineSegments` drawable added last (lines 137–138).  Its position is
never assigned, so it stays at the default `z = 0`; it references
`lineMaterial`. -/
def linesChild : Child := ⟨0, lineMatId⟩

/-- The children of the group returned by `createTunnelSection`, in the
order `group.add` was called: the `rings+1` ring drawables, then the
longitudinal line batch. -/
def sectionChildren (cfg : Config) : List Child :=
  ringChildren cfg ++ [linesChild]

/-- The opacity computed in `animate` (lines 164–166):
`Math.max(0.2, Math.min(0.7,
  1 - Math.pow(distanceFromCamera / (this.config.length * 0.7), 1.5)))`,
with `Math.pow` idealised as the real power `x ^ (1.5 : ℝ)`. -/
noncomputable def jsOpacity (length d : ℝ) : ℝ :=
  max 0.2 (min 0.7 (1 - (d / (length * 0.7)) ^ (1.5 : ℝ)))

/-- Modelled from the spec's words: `clamp(x, lower, upper)` — the value `x`
bounded below by `lower` and above by `upper`.  Used only to compare the
source formula against the spec's `clamp` form. -/
noncomputable def specClamp (x lo hi : ℝ) : ℝ := min (max x lo) hi

/-- `distanceFromCamera = Math.abs(child.position.z + section.position.z)`
(line 163). -/
def distanceFromCamera (childZ offset : ℚ) : ℝ := |(childZ : ℝ) + (offset : ℝ)|

/-- The per-section opacity pass of `animate` (lines 162–168): iterate over
`section.children` in order and assign `child.material.opacity = opacity`.
The state is the map from material identity to its current opacity, so a
write through one child overwrites the value any earlier child stored in the
same shared material. -/
noncomputable def opacityPass (cfg : Config) (offset : ℚ) (m : ℕ → ℝ) : ℕ → ℝ :=
  (sectionChildren cfg).foldl
    (fun acc c =>
      Function.update acc c.matId (jsOpacity (cfg.length : ℝ) (distanceFromCamera c.z offset)))
    m

/-- `const steps = 200` (line 113): axial sample count for the longitudinal
lines, giving `steps + 1 = 201` points per angle. -/
def steps : ℕ := 200

/-- The vertex buffer of the longitudinal-line batch (lines 115–125),
annotated with its sampling provenance: the outer loop
`for (let i = 0; i < segments; i++)` pushes, for each angle index `i` in
ascending order, one block of `steps + 1` entries `(i, j)` with
`j = 0 .. steps`.  Entry `(i, j)` stands for the vertex sampled at angle
index `i` and axial sample `j`; its coordinates are `lineVertexPos`. -/
def lineVertexData : ℕ → List (ℕ × ℕ)
  | 0 => []
  | s + 1 => lineVertexData s ++ (List.range (steps + 1)).map (fun j => (s, j))

/-- The coordinates pushed for entry `(i, j)` (lines 116–123):
`theta = (i / segments) * Math.PI * 2`,
`(Math.cos(theta) * radius, Math.sin(theta) * radius,
  (j / steps) * length - length/2)`. -/
noncomputable def lineVertexPos (cfg : Config) (i j : ℕ) : ℝ × ℝ × ℝ :=
  (Real.cos ((i : ℝ) / (cfg.segments : ℝ) * Real.pi * 2) * (cfg.radius : ℝ),
   Real.sin ((i : ℝ) / (cfg.segments : ℝ) * Real.pi * 2) * (cfg.radius : ℝ),
   (j : ℝ) / (steps : ℝ) * (cfg.length : ℝ) - (cfg.length : ℝ) / 2)

/-- Modelled from the spec's words: a point at
`radius · (cos theta_i, sin theta_i)` for the evenly spaced angle
`theta_i = (i / angularSegments) · 2π`, with `z` the `j`-th of `steps + 1`
evenly spaced samples from `−length/2` to `+length/2`.  Used only to compare
the source's vertex coordinates against the spec's formula. -/
noncomputable def specLineVertexPos (cfg : Config) (i j : ℕ) : ℝ × ℝ × ℝ :=
  ((cfg.radius : ℝ) * Real.cos ((i : ℝ) / (cfg.segments : ℝ) * (2 * Real.pi)),
   (cfg.radius : ℝ) * Real.sin ((i : ℝ) / (cfg.segments : ℝ) * (2 * Real.pi)),
   -(cfg.length : ℝ) / 2 + (j : ℝ) * ((cfg.length : ℝ) / (steps : ℝ)))

/-- The pairing property asserted by the claim: the renderer
(`THREE.LineSegments`) treats consecutive vertices `2k` and `2k+1` as one
segment, and the claim states that every such pair connects two points
sampled at the same angle (equal angle index). -/
def sameAnglePairs (s : ℕ) : Prop :=
  ∀ k, 2 * k + 1 < (lineVertexData s).length →
    ((lineVertexData s).get? (2 * k)).map Prod.fst
      = ((lineVertexData s).get? (2 * k + 1)).map Prod.fst

/-- Identity of the anonymous debouncing arrow function passed to
`window.addEventListener('resize', () => { ... })` in the constructor
(lines 70–73).  It is a fresh function object. -/
def anonResizeId : ℕ := 0

/-- Identity of the bound method `this.handleResize` (line 66) — the
argument `dispose` later passes to `window.removeEventListener` (line 199).
It is a different function object from the anonymous arrow listener. -/
def handleResizeId : ℕ := 1

/-- The lifecycle state of a `TunnelAnimation` instance:
`isAnimating` (line 59), whether the `THREE.Clock` is running, how many
times the clock has been reset (each `clock.start()` zeroes its elapsed
time), the number of pending `requestAnimationFrame` callbacks, the
identities of the listeners currently registered on the window for
`resize`, and whether the geometry/material/renderer resources have been
released. -/
structure SysState where
  isAnimating : Bool
  clockRunning : Bool
  clockResets : ℕ
  scheduled : ℕ
  listeners : List ℕ
  resourcesReleased : Bool
deriving DecidableEq

/-- The state right after the constructor: not animating, clock not yet
started, no frame scheduled, the anonymous resize listener registered
(lines 59–73). -/
def initState : SysState :=
  { isAnimating := false
    clockRunning := false
    clockResets := 0
    scheduled := 0
    listeners := [anonResizeId]
    resourcesReleased := false }

/-- `start()` (lines 184–190): a no-op while `isAnimating`; otherwise it
sets the flag, restarts (and thereby resets) the clock, and calls
`this.animate(0)`, whose `requestAnimationFrame(this.animate)` schedules
exactly one frame callback. -/
def start (s : SysState) : SysState :=
  if s.isAnimating then s
  else
    { s with
      isAnimating := true
      clockRunning := true
      clockResets := s.clockResets + 1
      scheduled := s.scheduled + 1 }

/-- `stop()` (lines 192–195): clear `isAnimating` and stop the clock.
Pending frame callbacks are not cancelled here; they terminate on their own
(see `frameCallback`). -/
def stop (s : SysState) : SysState :=
  { s with isAnimating := false, clockRunning := false }

/-- One pending `requestAnimationFrame` callback firing, i.e. `animate`
(lines 143–172): the firing itself consumes one pending callback; if
`isAnimating` is false at entry the method returns at once without
rescheduling (net: one fewer pending callback), otherwise it immediately
re-requests a frame (net: the pending count is unchanged) and runs the frame
body, whose effect on offsets and opacities is `animateStep`. -/
def frameCallback (s : SysState) : SysState :=
  if s.isAnimating then s else { s with scheduled := s.scheduled - 1 }

/-- `dispose()` (lines 197–208): call `stop()`, then
`window.removeEventListener('resize', this.handleResize)` — which removes a
registration of `handleResizeId` if one exists — then release every
section's geometry/material resources and the renderer. -/
def dispose (s : SysState) : SysState :=
  let s' := stop s
  { s' with listeners := s'.listeners.erase handleResizeId, resourcesReleased := true }

/-- The observable output of one execution of the frame body of `animate`
(lines 143–172): the recorded frame delta (`this.deltaTime`, line 148), the
updated per-section offsets, and the per-section material-opacity maps. -/
structure FrameOut where
  deltaTime : ℚ
  offsets : List ℚ
  sectionMats : List (ℕ → ℝ)

/-- The frame body of `animate` (lines 148–169) as a function of the
measured clock delta and the current per-section offsets and material
maps: store the delta, advance-and-wrap every section offset, then run the
opacity pass of each section with its updated offset.  The delta is read
(line 148) but used nowhere else. -/
noncomputable def animateStep (cfg : Config) (delta : ℚ) (offsets : List ℚ)
    (mats : List (ℕ → ℝ)) : FrameOut :=
  let newOffsets := offsets.map (stepOffset cfg)
  { deltaTime := delta
    offsets := newOffsets
    sectionMats := List.zipWith (fun off m => opacityPass cfg off m) newOffsets mats }

end Tunnel

/-- C1 counterexample: with the default configuration
(`sectionLength = 50/2 = 25`, `speed = 0.03`), a section at offset `24.97`
advances to exactly `25 = sectionLength`; the code's strict `>` test does not
fire, so the offset stays at `25`, which is outside the claimed half-open
interval `[−25, 25)` and is not wrapped to `−25`. -/
theorem Tunnel.stepOffset_boundary_counterexample :
    Tunnel.stepOffset Tunnel.defaultConfig (2497/100) = 25 ∧
    ¬ Tunnel.stepOffset Tunnel.defaultConfig (2497/100) < Tunnel.sectionLength Tunnel.defaultConfig ∧
    Tunnel.stepOffset Tunnel.defaultConfig (2497/100) ≠
      -Tunnel.sectionLength Tunnel.defaultConfig * ((Tunnel.defaultConfig.bufferSize : ℚ) - 1) := by
  refine ⟨?_, ?_, ?_⟩ <;>
    norm_num [Tunnel.stepOffset, Tunnel.sectionLength, Tunnel.defaultConfig]

/-- C1 (amended): for a sane configuration (`bufferSize ≥ 1`, `length ≥ 0`,
`speed ≥ 0`) and a section offset in the closed interval
`[−sectionLength·(bufferSize−1), sectionLength]`, the advanced-and-wrapped
offset stays in that closed interval; wraparound fires only on strict
exceedance, so the right endpoint `sectionLength` is reachable and not
wrapped. -/
theorem Tunnel.stepOffset_mem_Icc (cfg : Tunnel.Config) (offset : ℚ)
    (hb : 1 ≤ cfg.bufferSize) (hL : 0 ≤ cfg.length) (hs : 0 ≤ cfg.speed)
    (hlo : -Tunnel.sectionLength cfg * ((cfg.bufferSize : ℚ) - 1) ≤ offset)
    (hhi : offset ≤ Tunnel.sectionLength cfg) :
    -Tunnel.sectionLength cfg * ((cfg.bufferSize : ℚ) - 1) ≤ Tunnel.stepOffset cfg offset ∧
    Tunnel.stepOffset cfg offset ≤ Tunnel.sectionLength cfg := by
  have hb' : (1 : ℚ) ≤ (cfg.bufferSize : ℚ) := by exact_mod_cast hb
  have hS : 0 ≤ Tunnel.sectionLength cfg := by
    have : (0 : ℚ) ≤ (cfg.bufferSize : ℚ) := by positivity
    exact div_nonneg hL this
  unfold Tunnel.stepOffset
  by_cases h : Tunnel.sectionLength cfg < offset + cfg.speed
  · simp only [h, if_true]
    constructor
    · exact le_refl _
    · nlinarith [hS, hb']
  · simp only [h, if_false]
    constructor
    · nlinarith [hs, hlo, hb', hS]
    · exact le_of_not_lt h

/-- C1 witness: the amended invariant applied to the default configuration at
offset `0`. -/
theorem Tunnel.stepOffset_mem_Icc_witness :
    -Tunnel.sectionLength Tunnel.defaultConfig * ((Tunnel.defaultConfig.bufferSize : ℚ) - 1) ≤
        Tunnel.stepOffset Tunnel.defaultConfig 0 ∧
    Tunnel.stepOffset Tunnel.defaultConfig 0 ≤ Tunnel.sectionLength Tunnel.defaultConfig :=
  Tunnel.stepOffset_mem_Icc Tunnel.defaultConfig 0 (by norm_num [Tunnel.defaultConfig])
    (by norm_num [Tunnel.defaultConfig]) (by norm_num [Tunnel.defaultConfig])
    (by norm_num [Tunnel.sectionLength, Tunnel.defaultConfig])
    (by norm_num [Tunnel.sectionLength, Tunnel.defaultConfig])

/-- Helper: for `lo ≤ hi`, the source's `max lo (min hi x)` agrees with the
spec's clamp `min (max x lo) hi`. -/
theorem Tunnel.max_min_eq_clamp (x lo hi : ℝ) (h : lo ≤ hi) :
    max lo (min hi x) = min (max x lo) hi := by
  rcases le_total x lo with hx | hx
  · rw [max_eq_left (le_trans (min_le_right hi x) hx), max_eq_right hx, min_eq_left h]
  · rcases le_total x hi with hx2 | hx2
    · rw [min_eq_right hx2, max_eq_right hx, max_eq_left hx, min_eq_left hx2]
    · rw [min_eq_left hx2, max_eq_right h, max_eq_left (le_trans h hx2), min_eq_right hx2]

/-- C2: the opacity computed by `animate` equals the spec's
`clamp(1 − (distanceFromCamera / (0.7·tunnelLength))^1.5, 0.2, 0.7)`, and
for every finite `distanceFromCamera ≥ 0` it lies in `[0.2, 0.7]`
(including distance `0` and arbitrarily large distances). -/
theorem Tunnel.jsOpacity_clamped (length d : ℝ) (hd : 0 ≤ d) :
    Tunnel.jsOpacity length d
      = Tunnel.specClamp (1 - (d / (0.7 * length)) ^ (1.5 : ℝ)) 0.2 0.7 ∧
    0.2 ≤ Tunnel.jsOpacity length d ∧ Tunnel.jsOpacity length d ≤ 0.7 := by
  refine ⟨?_, ?_, ?_⟩
  · rw [Tunnel.jsOpacity, Tunnel.specClamp, mul_comm (0.7 : ℝ) length]
    exact Tunnel.max_min_eq_clamp _ _ _ (by norm_num)
  · exact le_max_left _ _
  · exact max_le (by norm_num) (min_le_left _ _)

/-- C2 witness: the default tunnel length `50` at distance `0`. -/
theorem Tunnel.jsOpacity_clamped_witness :
    Tunnel.jsOpacity 50 0
      = Tunnel.specClamp (1 - ((0 : ℝ) / (0.7 * 50)) ^ (1.5 : ℝ)) 0.2 0.7 ∧
    0.2 ≤ Tunnel.jsOpacity 50 0 ∧ Tunnel.jsOpacity 50 0 ≤ 0.7 :=
  Tunnel.jsOpacity_clamped 50 0 (le_refl 0)

/-- C4 counterexample: in the section built by `createTunnelSection` with the
default configuration, the first child (a ring drawable) references
`ringMaterial` while the last child (the longitudinal line batch) references
the separately allocated `lineMaterial`: the drawables of one section do
not all share one material instance. -/
theorem Tunnel.sharedMaterial_counterexample :
    ((Tunnel.sectionChildren Tunnel.defaultConfig).get? 0).map Tunnel.Child.matId
      = some Tunnel.ringMatId ∧
    ((Tunnel.sectionChildren Tunnel.defaultConfig).get? 61).map Tunnel.Child.matId
      = some Tunnel.lineMatId ∧
    Tunnel.ringMatId ≠ Tunnel.lineMatId := by
  refine ⟨rfl, ?_, by decide⟩
  rfl

/-- C4 (amended): within one section, the `ringCount+1` ring drawables all
reference the single shared `ringMaterial`, while the longitudinal line
batch references a second, distinct material instance (`lineMaterial`); no
code path ever reassigns a child's material, so this holds in every
reachable state after construction. -/
theorem Tunnel.section_materials (cfg : Tunnel.Config) :
    (∀ c ∈ Tunnel.ringChildren cfg, c.matId = Tunnel.ringMatId) ∧
    Tunnel.linesChild.matId = Tunnel.lineMatId ∧
    Tunnel.ringMatId ≠ Tunnel.lineMatId := by
  refine ⟨?_, rfl, by decide⟩
  intro c hc
  obtain ⟨i, _, rfl⟩ := List.mem_map.mp hc
  rfl

/-- C4 witness: ring `0` of the default configuration shares `ringMaterial`,
which differs from the line batch's material. -/
theorem Tunnel.section_materials_witness :
    (Tunnel.ringChild Tunnel.defaultConfig 0).matId = Tunnel.ringMatId ∧
    Tunnel.linesChild.matId = Tunnel.lineMatId ∧
    Tunnel.ringMatId ≠ Tunnel.lineMatId :=
  ⟨(Tunnel.section_materials Tunnel.defaultConfig).1 _
      (List.mem_map.mpr ⟨0, List.mem_range.mpr (by norm_num), rfl⟩),
    (Tunnel.section_materials Tunnel.defaultConfig).2⟩

/-- C8: for every sane configuration (`rings ≥ 1`, `length ≥ 0`), a section
contains exactly `rings+1` ring drawables, ring `i` (for `i ≤ rings`) sits at
axial position `(i/rings)·length − length/2`, and every ring position lies
within `[−length/2, +length/2]`. -/
theorem Tunnel.ring_count_positions (cfg : Tunnel.Config)
    (hr : 1 ≤ cfg.rings) (hL : 0 ≤ cfg.length) :
    ((Tunnel.sectionChildren cfg).countP (fun c => c.matId == Tunnel.ringMatId))
      = cfg.rings + 1 ∧
    ∀ i ≤ cfg.rings,
      (Tunnel.ringChild cfg i).z = (i : ℚ) / (cfg.rings : ℚ) * cfg.length - cfg.length / 2 ∧
      -(cfg.length / 2) ≤ (Tunnel.ringChild cfg i).z ∧
      (Tunnel.ringChild cfg i).z ≤ cfg.length / 2 := by
  constructor
  · rw [Tunnel.sectionChildren, List.countP_append]
    have hall : (Tunnel.ringChildren cfg).countP (fun c => c.matId == Tunnel.ringMatId)
        = (Tunnel.ringChildren cfg).length := by
      apply List.countP_eq_length.mpr
      intro c hc
      obtain ⟨i, _, rfl⟩ := List.mem_map.mp hc
      rfl
    rw [hall, Tunnel.ringChildren, List.length_map, List.length_range]
    rfl
  · intro i hi
    refine ⟨rfl, ?_, ?_⟩
    · have hr' : (0 : ℚ) < (cfg.rings : ℚ) := by
        exact_mod_cast Nat.lt_of_lt_of_le Nat.zero_lt_one hr
      have hq0 : (0 : ℚ) ≤ (i : ℚ) / (cfg.rings : ℚ) := by positivity
      have : (0 : ℚ) ≤ (i : ℚ) / (cfg.rings : ℚ) * cfg.length := mul_nonneg hq0 hL
      show -(cfg.length / 2) ≤ (i : ℚ) / (cfg.rings : ℚ) * cfg.length - cfg.length / 2
      linarith
    · have hr' : (0 : ℚ) < (cfg.rings : ℚ) := by
        exact_mod_cast Nat.lt_of_lt_of_le Nat.zero_lt_one hr
      have hi' : (i : ℚ) ≤ (cfg.rings : ℚ) := by exact_mod_cast hi
      have hq1 : (i : ℚ) / (cfg.rings : ℚ) ≤ 1 := (div_le_one hr').mpr hi'
      have : (i : ℚ) / (cfg.rings : ℚ) * cfg.length ≤ 1 * cfg.length :=
        mul_le_mul_of_nonneg_right hq1 hL
      show (i : ℚ) / (cfg.rings : ℚ) * cfg.length - cfg.length / 2 ≤ cfg.length / 2
      linarith

/-- C8 witness: the default configuration — `61` ring drawables, and the
last ring (`i = 60`) lies inside `[−25, 25]`. -/
theorem Tunnel.ring_count_positions_witness :
    ((Tunnel.sectionChildren Tunnel.defaultConfig).countP
        (fun c => c.matId == Tunnel.ringMatId)) = 61 ∧
    -(Tunnel.defaultConfig.length / 2) ≤ (Tunnel.ringChild Tunnel.defaultConfig 60).z ∧
    (Tunnel.ringChild Tunnel.defaultConfig 60).z ≤ Tunnel.defaultConfig.length / 2 := by
  have h := Tunnel.ring_count_positions Tunnel.defaultConfig
    (by norm_num [Tunnel.defaultConfig]) (by norm_num [Tunnel.defaultConfig])
  exact ⟨h.1, (h.2 60 (by norm_num [Tunnel.defaultConfig])).2⟩

/-- C5: after the per-child opacity pass over one section, the shared ring
material holds the opacity computed for the last ring evaluated — the ring
at local `z = +length/2` (for `rings ≥ 1`) — and the line material holds the
opacity of the line batch (local `z = 0`); each material carries exactly one
final value, applied uniformly to every child referencing it, overwriting
all earlier per-child writes. -/
theorem Tunnel.opacityPass_lastWriter (cfg : Tunnel.Config) (offset : ℚ) (m : ℕ → ℝ)
    (hr : 1 ≤ cfg.rings) :
    Tunnel.opacityPass cfg offset m Tunnel.ringMatId
      = Tunnel.jsOpacity (cfg.length : ℝ)
          (Tunnel.distanceFromCamera (cfg.length / 2) offset) ∧
    Tunnel.opacityPass cfg offset m Tunnel.lineMatId
      = Tunnel.jsOpacity (cfg.length : ℝ) (Tunnel.distanceFromCamera 0 offset) := by
  have hr0 : (cfg.rings : ℚ) ≠ 0 := by
    have : cfg.rings ≠ 0 := by omega
    exact_mod_cast this
  rw [Tunnel.opacityPass, Tunnel.sectionChildren, List.foldl_append]
  simp only [List.foldl_cons, List.foldl_nil]
  constructor
  · rw [show Tunnel.linesChild.matId = Tunnel.lineMatId from rfl,
      Function.update_noteq (by decide : Tunnel.ringMatId ≠ Tunnel.lineMatId)]
    rw [Tunnel.ringChildren, List.range_succ, List.map_append, List.foldl_append]
    simp only [List.map_cons, List.map_nil, List.foldl_cons, List.foldl_nil]
    rw [show (Tunnel.ringChild cfg cfg.rings).matId = Tunnel.ringMatId from rfl,
      Function.update_same]
    have hz : (Tunnel.ringChild cfg cfg.rings).z = cfg.length / 2 := by
      show (cfg.rings : ℚ) / (cfg.rings : ℚ) * cfg.length - cfg.length / 2 = cfg.length / 2
      rw [div_self hr0]
      ring
    rw [hz]
  · rw [show Tunnel.linesChild.matId = Tunnel.lineMatId from rfl, Function.update_same]
    rfl

/-- C5 witness: the default configuration at offset `0`, starting from the
base opacity `0.5` on every material. -/
theorem Tunnel.opacityPass_lastWriter_witness :
    Tunnel.opacityPass Tunnel.defaultConfig 0 (fun _ => (1 : ℝ) / 2) Tunnel.ringMatId
      = Tunnel.jsOpacity (Tunnel.defaultConfig.length : ℝ)
          (Tunnel.distanceFromCamera (Tunnel.defaultConfig.length / 2) 0) ∧
    Tunnel.opacityPass Tunnel.defaultConfig 0 (fun _ => (1 : ℝ) / 2) Tunnel.lineMatId
      = Tunnel.jsOpacity (Tunnel.defaultConfig.length : ℝ)
          (Tunnel.distanceFromCamera 0 0) :=
  Tunnel.opacityPass_lastWriter Tunnel.defaultConfig 0 (fun _ => (1 : ℝ) / 2)
    (by norm_num [Tunnel.defaultConfig])

/-- Helper: the line-batch buffer holds `segments · 201` vertices. -/
theorem Tunnel.lineVertexData_length (s : ℕ) :
    (Tunnel.lineVertexData s).length = s * (Tunnel.steps + 1) := by
  induction s with
  | zero => rfl
  | succ n ih =>
    simp [Tunnel.lineVertexData, ih, Nat.succ_mul]

/-- Helper: every entry of the buffer carries an angle index below
`segments`. -/
theorem Tunnel.lineVertexData_fst_lt (s : ℕ) :
    ∀ p ∈ Tunnel.lineVertexData s, p.1 < s := by
  induction s with
  | zero => intro p hp; cases hp
  | succ n ih =>
    intro p hp
    rw [Tunnel.lineVertexData] at hp
    rcases List.mem_append.mp hp with h | h
    · exact Nat.lt_succ_of_lt (ih p h)
    · obtain ⟨j, _, rfl⟩ := List.mem_map.mp h
      exact Nat.lt_succ_self n
/-- Helper: the vertex at buffer position `i·201 + j` (for `i < segments`,
`j ≤ steps`) is the one sampled at angle index `i`, axial sample `j`. -/
theorem Tunnel.lineVertexData_get (s i j : ℕ) (hi : i < s) (hj : j < Tunnel.steps + 1) :
    (Tunnel.lineVertexData s).get? (i * (Tunnel.steps + 1) + j) = some (i, j) := by
  induction s with
  | zero => exact absurd hi (Nat.not_lt_zero i)
  | succ n ih =>
    rw [Tunnel.lineVertexData]
    rcases Nat.lt_succ_iff_lt_or_eq.mp hi with h | rfl
    · rw [List.get?_append]
      · exact ih h
      · rw [Tunnel.lineVertexData_length]
        have h1 : i + 1 ≤ n := h
        calc i * (Tunnel.steps + 1) + j
            < i * (Tunnel.steps + 1) + (Tunnel.steps + 1) := by omega
          _ = (i + 1) * (Tunnel.steps + 1) := by ring
          _ ≤ n * (Tunnel.steps + 1) := Nat.mul_le_mul_right _ h1
    · rw [List.get?_append_right]
      · rw [Tunnel.lineVertexData_length]
        have : i * (Tunnel.steps + 1) + j - i * (Tunnel.steps + 1) = j := by omega
        rw [this, List.get?_map, List.get?_range hj]
        rfl
      · rw [Tunnel.lineVertexData_length]
        omega

/-- Helper: the vertex at any in-range buffer position `n` was sampled at
angle index `n / 201` and axial sample `n % 201`. -/
theorem Tunnel.lineVertexData_get_divMod (s n : ℕ) (hn : n < s * (Tunnel.steps + 1)) :
    (Tunnel.lineVertexData s).get? n
      = some (n / (Tunnel.steps + 1), n % (Tunnel.steps + 1)) := by
  have h := Tunnel.lineVertexData_get s (n / (Tunnel.steps + 1)) (n % (Tunnel.steps + 1))
    (Nat.div_lt_of_lt_mul (by rw [Nat.mul_comm] at hn; exact hn))
    (Nat.mod_lt _ (Nat.succ_pos _))
  rwa [Nat.mul_comm, Nat.div_add_mod] at h

/-- Helper: each angle index `i < segments` owns exactly `steps + 1 = 201`
entries of the line-batch vertex buffer. -/
theorem Tunnel.lineVertexData_countP (s i : ℕ) (hi : i < s) :
    ((Tunnel.lineVertexData s).countP (fun p => p.1 == i)) = Tunnel.steps + 1 := by
  induction s with
  | zero => exact absurd hi (Nat.not_lt_zero i)
  | succ n ih =>
    rw [Tunnel.lineVertexData, List.countP_append]
    rcases Nat.lt_succ_iff_lt_or_eq.mp hi with h | rfl
    · have hblock :
          ((List.range (Tunnel.steps + 1)).map (fun j => (n, j))).countP
            (fun p => p.1 == i) = 0 := by
        apply List.countP_eq_zero.mpr
        intro p hp
        obtain ⟨j, _, rfl⟩ := List.mem_map.mp hp
        simp only [beq_iff_eq]
        omega
      rw [ih h, hblock]
    · have h0 : (Tunnel.lineVertexData i).countP (fun p => p.1 == i) = 0 := by
        apply List.countP_eq_zero.mpr
        intro p hp
        have := Tunnel.lineVertexData_fst_lt i p hp
        simp only [beq_iff_eq]
        omega
      have h1 :
          ((List.range (Tunnel.steps + 1)).map (fun j => (i, j))).countP
            (fun p => p.1 == i) = Tunnel.steps + 1 := by
        have hall : ∀ p ∈ (List.range (Tunnel.steps + 1)).map (fun j => (i, j)),
            (fun p => p.1 == i) p = true := by
          intro p hp
          obtain ⟨j, _, rfl⟩ := List.mem_map.mp hp
          exact beq_self_eq_true i
        rw [List.countP_eq_length.mpr hall, List.length_map, List.length_range]
      rw [h0, h1]
      omega

/-- C7 counterexample: with the default `segments = 72`, the claim that every
consecutive vertex pair `(2k, 2k+1)` of the line batch connects two points
sampled at the same angle is false: since each angle contributes an odd
number (`201`) of vertices, the pair `k = 100` — vertices `200` and `201` —
connects the last point of angle `0` with the first point of angle `1`. -/
theorem Tunnel.linePairing_counterexample : ¬ Tunnel.sameAnglePairs 72 := by
  intro h
  have hk : 2 * 100 + 1 < (Tunnel.lineVertexData 72).length := by
    rw [Tunnel.lineVertexData_length]
    norm_num [Tunnel.steps]
  have h100 := h 100 hk
  have e200 : (Tunnel.lineVertexData 72).get? (2 * 100) = some (0, 200) := by
    have h0 := Tunnel.lineVertexData_get 72 0 200 (by norm_num) (by norm_num [Tunnel.steps])
    simpa [Tunnel.steps] using h0
  have e201 : (Tunnel.lineVertexData 72).get? (2 * 100 + 1) = some (1, 0) := by
    have h1 := Tunnel.lineVertexData_get 72 1 0 (by norm_num) (by norm_num [Tunnel.steps])
    simpa [Tunnel.steps] using h1
  rw [e200, e201] at h100
  simp at h100

/-- C7 (amended): the line-batch buffer holds, for each of the `segments`
angles, exactly `201` points whose coordinates match the spec's
`radius·(cos θᵢ, sin θᵢ)` with `z` sampled evenly from `−length/2` to
`+length/2`; and a consecutive vertex pair `(2k, 2k+1)` connects two points
sampled at the same angle exactly when `2k+1` is not a multiple of `201` —
pairs at the multiples straddle an angle boundary, because each angle
contributes an odd number of points. -/
theorem Tunnel.lineBatch_layout (cfg : Tunnel.Config) :
    (∀ i, i < cfg.segments →
      ((Tunnel.lineVertexData cfg.segments).countP (fun p => p.1 == i))
        = Tunnel.steps + 1) ∧
    (∀ i j, Tunnel.lineVertexPos cfg i j = Tunnel.specLineVertexPos cfg i j) ∧
    (∀ k, 2 * k + 1 < (Tunnel.lineVertexData cfg.segments).length →
      (((Tunnel.lineVertexData cfg.segments).get? (2 * k)).map Prod.fst
          = ((Tunnel.lineVertexData cfg.segments).get? (2 * k + 1)).map Prod.fst
        ↔ ¬ (Tunnel.steps + 1) ∣ (2 * k + 1))) := by
  refine ⟨fun i hi => Tunnel.lineVertexData_countP cfg.segments i hi, ?_, ?_⟩
  · intro i j
    unfold Tunnel.lineVertexPos Tunnel.specLineVertexPos
    have harg : (i : ℝ) / (cfg.segments : ℝ) * Real.pi * 2
        = (i : ℝ) / (cfg.segments : ℝ) * (2 * Real.pi) := by ring
    rw [harg]
    simp only [Prod.mk.injEq]
    refine ⟨mul_comm _ _, mul_comm _ _, by ring⟩
  · intro k hk
    rw [Tunnel.lineVertexData_length] at hk
    rw [Tunnel.lineVertexData_get_divMod _ _ (by omega : 2 * k < cfg.segments * (Tunnel.steps + 1)),
      Tunnel.lineVertexData_get_divMod _ _ hk]
    simp only [Option.map_some', Option.some.injEq]
    have hsd := Nat.succ_div (2 * k) (Tunnel.steps + 1)
    constructor
    · intro he hdvd
      rw [hsd, if_pos hdvd] at he
      omega
    · intro hnd
      rw [hsd, if_neg hnd]
      omega

/-- C7 witness: the default configuration (`segments = 72`): angle `0` owns
`201` buffer entries, vertex `(0,0)` matches the spec formula, and the first
pair `(0, 1)` does connect two same-angle points since `1` is not a multiple
of `201`. -/
theorem Tunnel.lineBatch_layout_witness :
    ((Tunnel.lineVertexData Tunnel.defaultConfig.segments).countP (fun p => p.1 == 0))
      = Tunnel.steps + 1 ∧
    Tunnel.lineVertexPos Tunnel.defaultConfig 0 0
      = Tunnel.specLineVertexPos Tunnel.defaultConfig 0 0 ∧
    (((Tunnel.lineVertexData Tunnel.defaultConfig.segments).get? (2 * 0)).map Prod.fst
        = ((Tunnel.lineVertexData Tunnel.defaultConfig.segments).get? (2 * 0 + 1)).map Prod.fst
      ↔ ¬ (Tunnel.steps + 1) ∣ (2 * 0 + 1)) := by
  have h := Tunnel.lineBatch_layout Tunnel.defaultConfig
  refine ⟨h.1 0 (by norm_num [Tunnel.defaultConfig]), h.2.1 0 0, h.2.2 0 ?_⟩
  rw [Tunnel.lineVertexData_length]
  norm_num [Tunnel.defaultConfig, Tunnel.steps]

/-- C3: the lifecycle is a two-state machine on the `isAnimating` flag.
`start()` while Running is a no-op and `start` is idempotent, so two
consecutive calls leave exactly one scheduled frame loop; `start()` from
Stopped raises the flag, resets the clock and requests exactly one first
frame; `stop()` lowers the flag; and a frame callback that observes the
lowered flag at entry terminates without scheduling another frame (the
pending count only drops). -/
theorem Tunnel.lifecycle_stateMachine (s : Tunnel.SysState) :
    (s.isAnimating = true → Tunnel.start s = s) ∧
    Tunnel.start (Tunnel.start s) = Tunnel.start s ∧
    (s.isAnimating = false →
      (Tunnel.start s).isAnimating = true ∧
      (Tunnel.start s).clockResets = s.clockResets + 1 ∧
      (Tunnel.start s).scheduled = s.scheduled + 1) ∧
    (s.isAnimating = false ∧ s.scheduled = 0 → (Tunnel.start s).scheduled = 1) ∧
    (Tunnel.stop s).isAnimating = false ∧
    (s.isAnimating = false → (Tunnel.frameCallback s).scheduled = s.scheduled - 1) := by
  cases hA : s.isAnimating <;>
    simp [Tunnel.start, Tunnel.stop, Tunnel.frameCallback, hA]

/-- C3 witness: the freshly constructed instance — two `start()` calls in a
row yield the same state with exactly one scheduled frame, `stop()` lowers
the flag, and a callback firing on the stopped instance schedules nothing. -/
theorem Tunnel.lifecycle_stateMachine_witness :
    Tunnel.start (Tunnel.start Tunnel.initState) = Tunnel.start Tunnel.initState ∧
    (Tunnel.start Tunnel.initState).scheduled = 1 ∧
    (Tunnel.stop Tunnel.initState).isAnimating = false ∧
    (Tunnel.frameCallback Tunnel.initState).scheduled = Tunnel.initState.scheduled - 1 := by
  have h := Tunnel.lifecycle_stateMachine Tunnel.initState
  exact ⟨h.2.1, h.2.2.2.1 ⟨rfl, rfl⟩, h.2.2.2.2.1, h.2.2.2.2.2 rfl⟩

/-- C6 (code bug): after `dispose()` on a freshly constructed instance the
loop is stopped and the resources are released, but the resize listener
registered at construction is STILL attached: the constructor registered an
anonymous debouncing arrow function (lines 70–73), while `dispose` calls
`window.removeEventListener('resize', this.handleResize)` (line 199) with a
function that was never registered, so nothing is removed. -/
theorem Tunnel.dispose_leaves_listener :
    (Tunnel.dispose Tunnel.initState).listeners = [Tunnel.anonResizeId] ∧
    Tunnel.anonResizeId ∈ (Tunnel.dispose Tunnel.initState).listeners ∧
    (Tunnel.dispose Tunnel.initState).isAnimating = false ∧
    (Tunnel.dispose Tunnel.initState).resourcesReleased = true := by
  refine ⟨rfl, ?_, rfl, rfl⟩
  show Tunnel.anonResizeId ∈ [Tunnel.anonResizeId]
  exact List.mem_singleton.mpr rfl

/-- C10: `stop()` called after `dispose()` does not fail (it is a total
state transformation) and is a no-op on the disposed instance's observable
state: it re-clears the already-cleared `isAnimating` and clock flags and
touches nothing else. -/
theorem Tunnel.stop_after_dispose (s : Tunnel.SysState) :
    Tunnel.stop (Tunnel.dispose s) = Tunnel.dispose s := rfl

/-- C10 witness: the freshly constructed instance. -/
theorem Tunnel.stop_after_dispose_witness :
    Tunnel.stop (Tunnel.dispose Tunnel.initState) = Tunnel.dispose Tunnel.initState :=
  Tunnel.stop_after_dispose Tunnel.initState

/-- C9: the frame body advances every section offset by the fixed increment
`speed` (wrapping as needed), independently of the measured clock delta: two
executions from the same state that differ only in the delta produce
identical offsets and identical material opacities; the delta is merely
recorded in `deltaTime`. -/
theorem Tunnel.animate_delta_independent (cfg : Tunnel.Config) (d₁ d₂ : ℚ)
    (offsets : List ℚ) (mats : List (ℕ → ℝ)) :
    (Tunnel.animateStep cfg d₁ offsets mats).offsets
      = (Tunnel.animateStep cfg d₂ offsets mats).offsets ∧
    (Tunnel.animateStep cfg d₁ offsets mats).sectionMats
      = (Tunnel.animateStep cfg d₂ offsets mats).sectionMats ∧
    (Tunnel.animateStep cfg d₁ offsets mats).deltaTime = d₁ ∧
    (Tunnel.animateStep cfg d₁ offsets mats).offsets
      = offsets.map (Tunnel.stepOffset cfg) :=
  ⟨rfl, rfl, rfl, rfl⟩

/-- C9 witness: the default configuration, deltas `1/60` and `1/30`, the two
initial section offsets `0` and `25`, base-opacity materials. -/
theorem Tunnel.animate_delta_independent_witness :
    (Tunnel.animateStep Tunnel.defaultConfig (1/60) [0, 25]
        [fun _ => (1 : ℝ)/2, fun _ => (1 : ℝ)/2]).offsets
      = (Tunnel.animateStep Tunnel.defaultConfig (1/30) [0, 25]
          [fun _ => (1 : ℝ)/2, fun _ => (1 : ℝ)/2]).offsets ∧
    (Tunnel.animateStep Tunnel.defaultConfig (1/60) [0, 25]
        [fun _ => (1 : ℝ)/2, fun _ => (1 : ℝ)/2]).sectionMats
      = (Tunnel.animateStep Tunnel.defaultConfig (1/30) [0, 25]
          [fun _ => (1 : ℝ)/2, fun _ => (1 : ℝ)/2]).sectionMats :=
  ⟨(Tunnel.animate_delta_independent Tunnel.defaultConfig (1/60) (1/30) [0, 25]
      [fun _ => (1 : ℝ)/2, fun _ => (1 : ℝ)/2]).1,
    (Tunnel.animate_delta_independent Tunnel.defaultConfig (1/60) (1/30) [0, 25]
      [fun _ => (1 : ℝ)/2, fun _ => (1 : ℝ)/2]).2.1⟩
